import Mathlib

/-!
Shallow embedding of the MCP connection-management and streaming-translation
core of the OpenGPT repository.

Embedded source parts:
* `MCPServerManager` (fields `servers`, `isInitialized`, the global
  `__mcpConfigKey`, and methods `initializeServers`, `getServers`,
  `closeAllServers`, `updateServers`);
* the discovery route `POST` handler (connect, listTools, tool-field
  defaulting, and the finally-block close);
* the agents run route streaming loop (tool_called handling,
  message_output_created handling, terminal done and error frames, and the
  single close of the output controller).

Asynchronous effects (connect, listTools, close) are modelled by explicit
environment oracles deciding their outcomes, and every externally visible
effect (connect attempt, close call) is recorded in an explicit trace so that
claims counting operations can be stated.
-/

namespace OpenGPT

/-- One entry of the user-authored server configuration list, with the shape
of the `MCPServerConfig` interface. Optional fields are `Option` because the
source marks them `?` and the JSON serialization omits absent fields. -/
structure MCPServerConfig where
  id : String
  name : String
  type : String
  command : Option String := none
  args : Option (List String) := none
  env : Option (List (String × String)) := none
  url : Option String := none
deriving Repr, DecidableEq

/-- Serialization of one string in the style of JSON.stringify. Escaping of
special characters inside the string is not modelled; the claims only use
equality of serializations. -/
def jsonStr (s : String) : String :=
  "\"" ++ s ++ "\""

/-- Serialization of a string array in the style of JSON.stringify. -/
def jsonStrList (l : List String) : String :=
  "[" ++ String.intercalate "," (l.map jsonStr) ++ "]"

/-- Serialization of a string-to-string record in the style of
JSON.stringify. -/
def jsonStrMap (l : List (String × String)) : String :=
  "\x7b" ++ String.intercalate "," (l.map fun p => jsonStr p.1 ++ ":" ++ jsonStr p.2) ++ "\x7d"

/-- Serialization of one config object in the style of JSON.stringify:
fields appear in declaration order and fields holding undefined are
omitted. -/
def serializeConfig (c : MCPServerConfig) : String :=
  "\x7b" ++ jsonStr "id" ++ ":" ++ jsonStr c.id
  ++ "," ++ jsonStr "name" ++ ":" ++ jsonStr c.name
  ++ "," ++ jsonStr "type" ++ ":" ++ jsonStr c.type
  ++ (match c.command with
      | none => ""
      | some s => "," ++ jsonStr "command" ++ ":" ++ jsonStr s)
  ++ (match c.args with
      | none => ""
      | some l => "," ++ jsonStr "args" ++ ":" ++ jsonStrList l)
  ++ (match c.env with
      | none => ""
      | some l => "," ++ jsonStr "env" ++ ":" ++ jsonStrMap l)
  ++ (match c.url with
      | none => ""
      | some s => "," ++ jsonStr "url" ++ ":" ++ jsonStr s)
  ++ "\x7d"

/-- Serialization of a config list: the `JSON.stringify(configs)` fingerprint
computed at the top of `initializeServers`. -/
def serializeConfigs (configs : List MCPServerConfig) : String :=
  "[" ++ String.intercalate "," (configs.map serializeConfig) ++ "]"

/-- The constructor arguments of the server object built for one config:
`MCPServerStdio` when `config.type === 'stdio'`, else
`MCPServerStreamableHttp`, with the same `|| 'npx'`, `|| []`, `|| ''`
defaults the source applies. -/
inductive ServerSpec where
  | stdio (name command : String) (args : List String) (env : Option (List (String × String)))
  | httpStream (name url : String)
deriving Repr, DecidableEq

/-- Build the server object for one config, mirroring the branch on
`config.type` and the defaulting of missing fields in `initializeServers`. -/
def buildServer (c : MCPServerConfig) : ServerSpec :=
  if c.type = "stdio" then
    ServerSpec.stdio c.name (c.command.getD "npx") (c.args.getD []) c.env
  else
    ServerSpec.httpStream c.name (c.url.getD "")

/-- A live, connected server instance: the constructed server object plus a
unique instance number distinguishing separate connections of equal
configs. -/
structure Handle where
  hid : Nat
  spec : ServerSpec
deriving Repr, DecidableEq

/-- Externally visible operations performed by the manager, recorded in
order. -/
inductive Effect where
  | connectAttempt (sp : ServerSpec)
  | closeCall (h : Handle)
deriving Repr, DecidableEq

/-- The manager state: the `servers` map (insertion-ordered, as a JS Map),
the `isInitialized` flag, the global `__mcpConfigKey` (empty string when
never saved, matching the `|| ''` default of `getCurrentConfigKey`), and a
counter supplying fresh handle instance numbers. -/
structure ManagerState where
  servers : List (String × Handle)
  isInitialized : Bool
  configKey : String
  nextHid : Nat
deriving Repr, DecidableEq

/-- The state of the manager singleton at module load. -/
def initialState : ManagerState :=
  { servers := [], isInitialized := false, configKey := "", nextHid := 0 }

/-- Environment oracle deciding the outcome of each asynchronous
`connect()`. -/
structure Env where
  connectOk : ServerSpec → Bool

/-- `Map.set`: replace in place when the key is present (keeping its
position, as a JS Map does), else append. -/
def mapSet (m : List (String × Handle)) (k : String) (v : Handle) : List (String × Handle) :=
  match m with
  | [] => [(k, v)]
  | (k', v') :: rest =>
    if k' = k then (k, v) :: rest else (k', v') :: mapSet rest k v

/-- `Array.from(map.values())`: the values in insertion order. -/
def mapValues (m : List (String × Handle)) : List Handle :=
  m.map (·.2)

/-- Key membership in the servers map. -/
def mapHasKey (m : List (String × Handle)) (k : String) : Bool :=
  m.any (·.1 = k)

/-- The for-loop body of `initializeServers`: for each config, build the
server object, attempt `connect()`; on success store the handle under
`config.id`, on failure log and continue with the next config. Every
attempt is recorded. -/
def connectLoop (env : Env) (configs : List MCPServerConfig) (st : ManagerState) :
    ManagerState × List Effect :=
  match configs with
  | [] => (st, [])
  | c :: rest =>
    let sp := buildServer c
    if env.connectOk sp then
      let h : Handle := { hid := st.nextHid, spec := sp }
      let st' := { st with servers := mapSet st.servers c.id h, nextHid := st.nextHid + 1 }
      let r := connectLoop env rest st'
      (r.1, Effect.connectAttempt sp :: r.2)
    else
      let r := connectLoop env rest st
      (r.1, Effect.connectAttempt sp :: r.2)

/-- `closeAllServers`: close every stored handle in iteration order (each
failure is caught and only logged, so the loop always reaches every entry),
then clear the map and reset `isInitialized`. The stored config key is not
touched. -/
def closeAllServers (st : ManagerState) : ManagerState × List Effect :=
  ({ st with servers := [], isInitialized := false },
   st.servers.map fun p => Effect.closeCall p.2)

/-- `initializeServers`: compute the fingerprint; if already initialized
with the same fingerprint, return the stored handles with no effects; else
close existing servers when initialized, connect each config, mark
initialized, save the fingerprint, and return the stored handles. -/
def initializeServers (env : Env) (st : ManagerState) (configs : List MCPServerConfig) :
    List Handle × ManagerState × List Effect :=
  let configKey := serializeConfigs configs
  if st.isInitialized = true ∧ configKey = st.configKey then
    (mapValues st.servers, st, [])
  else
    let r1 := if st.isInitialized = true then closeAllServers st else (st, [])
    let r2 := connectLoop env configs r1.1
    let st3 := { r2.1 with isInitialized := true, configKey := configKey }
    (mapValues st3.servers, st3, r1.2 ++ r2.2)

/-- `getServers`: the stored handles, no side effects. -/
def getServers (st : ManagerState) : List Handle :=
  mapValues st.servers

/-- Number of connect attempts in a trace. -/
def countConnects (tr : List Effect) : Nat :=
  tr.countP fun e => match e with
    | Effect.connectAttempt _ => true
    | _ => false

/-- Number of close calls in a trace. -/
def countCloses (tr : List Effect) : Nat :=
  tr.countP fun e => match e with
    | Effect.closeCall _ => true
    | _ => false

/-- The server objects whose connection was attempted, in order. -/
def connectedSpecs (tr : List Effect) : List ServerSpec :=
  tr.filterMap fun e => match e with
    | Effect.connectAttempt sp => some sp
    | _ => none

/-! ## Discovery route -/

/-- JavaScript `a || b` on an optional string: the default is taken both
when the field is absent and when it is the empty string (both falsy). -/
def jsOrStr (o : Option String) (d : String) : String :=
  match o with
  | none => d
  | some s => if s = "" then d else s

/-- A tool entry as returned by `listTools()`: `name` and `description`
may be missing. -/
structure RawTool where
  name : Option String := none
  description : Option String := none
deriving Repr, DecidableEq

/-- A tool entry of the discovery response after defaulting. -/
structure ToolInfo where
  name : String
  description : String
deriving Repr, DecidableEq

/-- The tools mapping of the discovery route: a missing (or empty) name
becomes "Unknown Tool" and a missing (or empty) description becomes
"No description available". -/
def mapTool (t : RawTool) : ToolInfo :=
  { name := jsOrStr t.name "Unknown Tool",
    description := jsOrStr t.description "No description available" }

/-- The three response shapes of the discovery route: 200 with tools, 400
for a malformed request, 500 with a message and an empty tool list. -/
inductive DiscoverResponse where
  | ok (tools : List ToolInfo)
  | badRequest (err : String)
  | failure (err : String) (tools : List ToolInfo)
deriving Repr, DecidableEq

/-- Record of the externally visible operations of one discovery call. -/
structure DiscoverTrace where
  handlesMade : Nat
  connects : List ServerSpec
  closeCalls : Nat
  logs : List String
deriving Repr, DecidableEq

/-- Environment oracle for the discovery route: outcome of `connect()`
(with the error message used when it fails) and outcome of `listTools()`. -/
structure DEnv where
  connectOk : ServerSpec → Bool
  connectMsg : ServerSpec → String
  listTools : ServerSpec → Except String (List RawTool)

/-- The finally block of the discovery route: when a server object was
constructed, `close()` is called on it; a failure inside close is caught
and only logged, so the already-computed response passes through
unchanged. -/
def finallyClose (closeOk : ServerSpec → Bool) (sp : ServerSpec)
    (resp : DiscoverResponse) : DiscoverResponse × List String :=
  if closeOk sp then (resp, []) else (resp, ["Error closing MCP server:"])

/-- The try block of the discovery route after the server object has been
constructed: `connect()`, then `listTools()`, mapping the tools on success;
any failure is caught and becomes a 500 response whose message prepends
"Failed to discover tools: " to the error message (defaulted to
"Unknown error" when falsy). -/
def discoverBody (env : DEnv) (sp : ServerSpec) : DiscoverResponse :=
  if env.connectOk sp then
    match env.listTools sp with
    | Except.ok ts => DiscoverResponse.ok (ts.map mapTool)
    | Except.error m =>
      DiscoverResponse.failure ("Failed to discover tools: " ++ jsOrStr (some m) "Unknown error") []
  else
    DiscoverResponse.failure
      ("Failed to discover tools: " ++ jsOrStr (some (env.connectMsg sp)) "Unknown error") []

/-- The discovery route `POST` handler: reject a missing server config,
construct `MCPServerStdio` for type "stdio" (command defaulted to "npx",
args to []), `MCPServerStreamableHttp` for type "http" (url defaulted to
""), reject any other type before constructing anything; then connect,
list tools, and always close the constructed server in the finally
block. -/
def discover (env : DEnv) (closeOk : ServerSpec → Bool)
    (server? : Option MCPServerConfig) : DiscoverResponse × DiscoverTrace :=
  match server? with
  | none =>
    (DiscoverResponse.badRequest "Server configuration is required",
     { handlesMade := 0, connects := [], closeCalls := 0, logs := [] })
  | some s =>
    if s.type = "stdio" ∨ s.type = "http" then
      let sp := buildServer s
      let r := finallyClose closeOk sp (discoverBody env sp)
      (r.1, { handlesMade := 1, connects := [sp], closeCalls := 1, logs := r.2 })
    else
      (DiscoverResponse.badRequest "Invalid server type",
       { handlesMade := 0, connects := [], closeCalls := 0, logs := [] })

/-! ## Streaming translator (agents run route) -/

/-- A web-search action object: its query plus its full JSON
serialization (kept opaque as a string). -/
structure WebAction where
  query : String
  serialized : String
deriving Repr, DecidableEq

/-- The `providerData` object possibly attached to a raw tool-call item:
a possible nested action plus the full JSON serialization of the whole
object. -/
structure PData where
  action : Option WebAction := none
  serialized : String
deriving Repr, DecidableEq

/-- The `rawItem` of a tool_call_item, with the fields the streaming loop
reads; each is optional since the item shape is untyped in the source. -/
structure RawItem where
  rtype : Option String := none
  action : Option WebAction := none
  providerData : Option PData := none
  output : Option String := none
  name : Option String := none
  id : Option String := none
  status : Option String := none
deriving Repr, DecidableEq

/-- A `url_citation`-style entry of `contentItem.annotations`. -/
structure Citation where
  atype : String
  url : String
  title : String
deriving Repr, DecidableEq

/-- One entry of `item.rawItem.content` for a message output item:
its type tag, its text ("" when absent, matching the falsy check), and
its annotations array when present. -/
structure ContentItem where
  ctype : String
  text : String
  annotations : Option (List Citation) := none
deriving Repr, DecidableEq

/-- The run events the streaming loop distinguishes: a tool_called
run-item event carrying a tool_call_item, a message_output_created
run-item event carrying the content array of its raw item (none when the
content field is absent or not an array), and every other event shape,
which the loop ignores. -/
inductive StreamEvent where
  | toolCalled (item : RawItem)
  | messageOutput (content : Option (List ContentItem))
  | other
deriving Repr, DecidableEq

/-- The wire frames the route serializes as data lines. -/
inductive Frame where
  | toolCallDone (toolName callId args result status : String)
  | toolUrls (urls : List (String × String))
  | content (text : String)
  | done (reason : String)
  | error (msg : String)
deriving Repr, DecidableEq

/-- The result string synthesized for a built-in web search call. -/
def webSearchResult (q : String) : String :=
  "Web search performed for: \"" ++ q ++ "\"\n\nResults are integrated into the response below."

/-- The result string synthesized for a hosted tool call carrying a
provider action. -/
def hostedSearchResult (q : String) : String :=
  "Search query: \"" ++ q ++ "\"\n\nResults integrated into response."

/-- The placeholder tool result. -/
def placeholderResult : String :=
  "Tool executed successfully"

/-- `rawItem?.providerData?.action`. -/
def pdAction (pd : Option PData) : Option WebAction :=
  pd.bind (·.action)

/-- The four mutually exclusive cases of the tool_called handler's if/else
chain. -/
inductive ToolKind where
  | webSearch (a : WebAction)
  | hosted (a : WebAction)
  | provider (pd : PData)
  | bare
deriving Repr, DecidableEq

/-- The discrimination performed by the if/else chain of the tool_called
handler: a web_search_call carrying an action, else a hosted_tool_call
whose providerData carries an action, else an item carrying providerData,
else none of these. -/
def classifyToolItem (item : RawItem) : ToolKind :=
  match item.rtype, item.action with
  | some "web_search_call", some a => ToolKind.webSearch a
  | rt, _ =>
    match rt, pdAction item.providerData with
    | some "hosted_tool_call", some a => ToolKind.hosted a
    | _, _ =>
      match item.providerData with
      | some pd => ToolKind.provider pd
      | none => ToolKind.bare

/-- The if/else chain of the tool_called handler computing `toolArgs` and
the pre-output `toolResult` for each of the four cases. -/
def toolArgsResultChain (item : RawItem) : String × String :=
  match classifyToolItem item with
  | ToolKind.webSearch a => (a.serialized, webSearchResult a.query)
  | ToolKind.hosted a => (a.serialized, hostedSearchResult a.query)
  | ToolKind.provider pd => (pd.serialized, placeholderResult)
  | ToolKind.bare => ("\x7b\x7d", placeholderResult)

/-- Truthiness of an optional string field: absent and "" are falsy. -/
def optTruthy (o : Option String) : Bool :=
  match o with
  | none => false
  | some s => s ≠ ""

/-- The tool_called handler: compute args and result through the chain,
then let a truthy `rawItem.output` override the result, and emit one
tool_call_done frame with the name, id and status fallbacks
(`name || type || 'unknown'`, `id || Date.now().toString()`,
`status || 'completed'`); `now` stands for `Date.now()`. -/
def processToolCalled (now : Nat) (item : RawItem) : Frame :=
  let ar := toolArgsResultChain item
  let result := if optTruthy item.output then item.output.getD "" else ar.2
  Frame.toolCallDone
    (jsOrStr item.name (jsOrStr item.rtype "unknown"))
    (jsOrStr item.id (toString now))
    ar.1
    result
    (jsOrStr item.status "completed")

/-- `contentItem.annotations` filtered to url_citation entries and mapped
to (url, title) pairs; an absent annotations array yields no pairs. -/
def extractCitations (anns : Option (List Citation)) : List (String × String) :=
  match anns with
  | none => []
  | some l => (l.filter fun a => a.atype = "url_citation").map fun a => (a.url, a.title)

/-- The per-content-item body of the message_output_created handler: only
output_text items with truthy text emit anything; the url list, when
non-empty, is emitted as one tool_urls frame before the content frame
carrying the item text. -/
def processContentItem (ci : ContentItem) : List Frame :=
  if ci.ctype = "output_text" ∧ ci.text ≠ "" then
    let urls := extractCitations ci.annotations
    (if urls.isEmpty then [] else [Frame.toolUrls urls]) ++ [Frame.content ci.text]
  else
    []

/-- The message_output_created handler: iterate the content array when it
is present. -/
def processMessageOutput (content : Option (List ContentItem)) : List Frame :=
  match content with
  | none => []
  | some items => items.flatMap processContentItem

/-- Frames emitted for one observed run event. -/
def processEvent (now : Nat) (e : StreamEvent) : List Frame :=
  match e with
  | StreamEvent.toolCalled item => [processToolCalled now item]
  | StreamEvent.messageOutput c => processMessageOutput c
  | StreamEvent.other => []

/-- One full pass of the streaming loop. `events` are the run events
consumed before iteration ended; `err` is none when the event sequence was
exhausted normally and carries the failure message when iteration threw
after those events. On normal exhaustion one done frame with reason "stop"
ends the output; on a failure one error frame ends it and no done frame is
emitted. The second component counts how often the output controller is
closed: the finally block closes it exactly once on either path. -/
def runTranslator (now : Nat) (events : List StreamEvent) (err : Option String) :
    List Frame × Nat :=
  let body := (events.map (processEvent now)).flatten
  match err with
  | none => (body ++ [Frame.done "stop"], 1)
  | some m => (body ++ [Frame.error m], 1)

/-- Whether a frame is a done frame. -/
def isDone (f : Frame) : Bool :=
  match f with
  | Frame.done _ => true
  | _ => false

/-- Whether a frame is an error frame. -/
def isError (f : Frame) : Bool :=
  match f with
  | Frame.error _ => true
  | _ => false

/-- Whether a frame is a tool_urls frame. -/
def isToolUrls (f : Frame) : Bool :=
  match f with
  | Frame.toolUrls _ => true
  | _ => false

/-! ## Helper lemmas on the registry -/

/-- When the manager is initialized and the fingerprint is unchanged,
`initializeServers` returns the stored handles, leaves the state untouched
and performs no operation. -/
lemma initializeServers_early (env : Env) (st : ManagerState) (configs : List MCPServerConfig)
    (h1 : st.isInitialized = true) (h2 : serializeConfigs configs = st.configKey) :
    initializeServers env st configs = (mapValues st.servers, st, []) := by
  simp [initializeServers, h1, h2]

/-- After any `initializeServers` call the state is initialized, stores the
fingerprint of the requested list, and the returned handles are exactly the
stored ones. -/
lemma initializeServers_state (env : Env) (st : ManagerState) (configs : List MCPServerConfig) :
    (initializeServers env st configs).2.1.isInitialized = true ∧
    (initializeServers env st configs).2.1.configKey = serializeConfigs configs ∧
    (initializeServers env st configs).1 =
      mapValues (initializeServers env st configs).2.1.servers := by
  by_cases hc : st.isInitialized = true ∧ serializeConfigs configs = st.configKey
  · rw [initializeServers_early env st configs hc.1 hc.2]
    exact ⟨hc.1, hc.2.symm, rfl⟩
  · simp [initializeServers, if_neg hc]

/-! ## Concrete fixtures used by witnesses and counterexamples -/

/-- An http config for concrete evaluations. -/
def wcfg1 : MCPServerConfig :=
  { id := "a", name := "alpha", type := "http", url := some "http://x" }

/-- A stdio config (command absent) for concrete evaluations. -/
def wcfg2 : MCPServerConfig :=
  { id := "b", name := "beta", type := "stdio" }

/-- Environment in which every connection succeeds. -/
def envAll : Env :=
  { connectOk := fun _ => true }

/-- Environment in which stdio connections fail and http connections
succeed. -/
def envFailStdio : Env :=
  { connectOk := fun sp =>
      match sp with
      | ServerSpec.stdio _ _ _ _ => false
      | ServerSpec.httpStream _ _ => true }

/-! ## Claims about the registry -/

/-- Claim C1: for every two successive initializeServers calls whose
configuration lists serialize identically, the second call performs zero
connect and zero close operations and returns the same handle set as the
first. -/
theorem claim1_idempotent_reconcile (env : Env) (st : ManagerState)
    (configs1 configs2 : List MCPServerConfig)
    (h : serializeConfigs configs1 = serializeConfigs configs2) :
    countConnects (initializeServers env (initializeServers env st configs1).2.1 configs2).2.2 = 0 ∧
    countCloses (initializeServers env (initializeServers env st configs1).2.1 configs2).2.2 = 0 ∧
    (initializeServers env (initializeServers env st configs1).2.1 configs2).1 =
      (initializeServers env st configs1).1 := by
  obtain ⟨hinit, hkey, hret⟩ := initializeServers_state env st configs1
  have h2 : serializeConfigs configs2 = (initializeServers env st configs1).2.1.configKey := by
    rw [hkey, ← h]
  rw [initializeServers_early env _ configs2 hinit h2]
  exact ⟨rfl, rfl, hret.symm⟩

/-- Witness for claim C1 at a concrete config list. -/
theorem claim1_witness :
    countConnects
      (initializeServers envAll (initializeServers envAll initialState [wcfg1]).2.1 [wcfg1]).2.2 = 0 ∧
    countCloses
      (initializeServers envAll (initializeServers envAll initialState [wcfg1]).2.1 [wcfg1]).2.2 = 0 ∧
    (initializeServers envAll (initializeServers envAll initialState [wcfg1]).2.1 [wcfg1]).1 =
      (initializeServers envAll initialState [wcfg1]).1 :=
  claim1_idempotent_reconcile envAll initialState [wcfg1] [wcfg1] rfl

/-- Claim C10: after any initializeServers call the registry stores the
fingerprint of the full requested list and is marked initialized (also when
connections failed), and a subsequent call with an identically serializing
list performs zero connect attempts and returns the same (previously
successful) handles. -/
theorem claim10_failed_connects_not_retried (env : Env) (st : ManagerState)
    (configs configs2 : List MCPServerConfig)
    (h : serializeConfigs configs2 = serializeConfigs configs) :
    (initializeServers env st configs).2.1.isInitialized = true ∧
    (initializeServers env st configs).2.1.configKey = serializeConfigs configs ∧
    countConnects (initializeServers env (initializeServers env st configs).2.1 configs2).2.2 = 0 ∧
    (initializeServers env (initializeServers env st configs).2.1 configs2).1 =
      (initializeServers env st configs).1 := by
  obtain ⟨hinit, hkey, hret⟩ := initializeServers_state env st configs
  have h2 : serializeConfigs configs2 = (initializeServers env st configs).2.1.configKey := by
    rw [hkey, ← h]
  rw [initializeServers_early env _ configs2 hinit h2]
  exact ⟨hinit, hkey, rfl, hret.symm⟩

/-- Witness for claim C10 at a concrete list in which the stdio entry
fails to connect. -/
theorem claim10_witness :
    (initializeServers envFailStdio initialState [wcfg1, wcfg2]).2.1.isInitialized = true ∧
    (initializeServers envFailStdio initialState [wcfg1, wcfg2]).2.1.configKey =
      serializeConfigs [wcfg1, wcfg2] ∧
    countConnects
      (initializeServers envFailStdio
        (initializeServers envFailStdio initialState [wcfg1, wcfg2]).2.1 [wcfg1, wcfg2]).2.2 = 0 ∧
    (initializeServers envFailStdio
        (initializeServers envFailStdio initialState [wcfg1, wcfg2]).2.1 [wcfg1, wcfg2]).1 =
      (initializeServers envFailStdio initialState [wcfg1, wcfg2]).1 :=
  claim10_failed_connects_not_retried envFailStdio initialState [wcfg1, wcfg2] [wcfg1, wcfg2] rfl

/-- Claim C6 (amended): closeAllServers invokes close on every registered
handle, clears the map (so a subsequent getServers yields the empty list)
and resets the initialized flag, but leaves the stored configuration
fingerprint unchanged rather than resetting it. -/
theorem claim6_closeAll (st : ManagerState) :
    (closeAllServers st).2 = st.servers.map (fun p => Effect.closeCall p.2) ∧
    countCloses (closeAllServers st).2 = st.servers.length ∧
    (closeAllServers st).1.servers = [] ∧
    getServers (closeAllServers st).1 = [] ∧
    (closeAllServers st).1.isInitialized = false ∧
    (closeAllServers st).1.configKey = st.configKey := by
  refine ⟨rfl, ?_, rfl, rfl, rfl, rfl⟩
  simp [countCloses, closeAllServers, List.countP_map, Function.comp]

/-- Counterexample for claim C6 as stated: after a successful
initialization with one config, closeAllServers leaves the stored
fingerprint equal to its previous non-empty value instead of resetting
it. -/
theorem claim6_counterexample :
    (closeAllServers (initializeServers envAll initialState [wcfg1]).2.1).1.configKey =
      (initializeServers envAll initialState [wcfg1]).2.1.configKey ∧
    (closeAllServers (initializeServers envAll initialState [wcfg1]).2.1).1.configKey ≠ "" := by
  exact ⟨rfl, by decide⟩

/-! ## Partial-failure isolation of the connect loop -/

/-- Setting a key that is not yet present appends the binding. -/
lemma mapSet_of_not_mem (m : List (String × Handle)) (k : String) (v : Handle)
    (h : ∀ p ∈ m, p.1 ≠ k) : mapSet m k v = m ++ [(k, v)] := by
  induction m with
  | nil => rfl
  | cons p rest ih =>
    obtain ⟨k', v'⟩ := p
    have hp : k' ≠ k := h (k', v') (List.mem_cons_self _ _)
    simp only [mapSet, if_neg hp, List.cons_append, List.cons.injEq, true_and]
    exact ih fun q hq => h q (List.mem_cons_of_mem _ hq)

/-- A connect attempt at the head of a trace. -/
lemma connectedSpecs_cons_connect (sp : ServerSpec) (tr : List Effect) :
    connectedSpecs (Effect.connectAttempt sp :: tr) = sp :: connectedSpecs tr := by
  simp [connectedSpecs]

/-- Close calls contribute no connect attempts. -/
lemma connectedSpecs_closes (l : List (String × Handle)) :
    connectedSpecs (l.map fun p => Effect.closeCall p.2) = [] := by
  induction l with
  | nil => rfl
  | cons p rest ih => simp [connectedSpecs] at ih ⊢

/-- Connect attempts of a concatenated trace. -/
lemma connectedSpecs_append (a b : List Effect) :
    connectedSpecs (a ++ b) = connectedSpecs a ++ connectedSpecs b := by
  simp [connectedSpecs]

/-- The values of an appended map. -/
lemma mapValues_append (a b : List (String × Handle)) :
    mapValues (a ++ b) = mapValues a ++ mapValues b := by
  simp [mapValues]

/-- The connect loop over configs with pairwise fresh ids: it attempts the
connection of every config in order, and appends to the stored values one
handle per config whose connection succeeds, built from that config. -/
lemma connectLoop_spec (env : Env) (configs : List MCPServerConfig) (st : ManagerState)
    (hd : ∀ c ∈ configs, ∀ p ∈ st.servers, p.1 ≠ c.id)
    (hnd : (configs.map (·.id)).Nodup) :
    (mapValues (connectLoop env configs st).1.servers).map (·.spec) =
      (mapValues st.servers).map (·.spec) ++
        ((configs.filter fun c => env.connectOk (buildServer c)).map buildServer) ∧
    connectedSpecs (connectLoop env configs st).2 = configs.map buildServer := by
  induction configs generalizing st with
  | nil => simp [connectLoop, connectedSpecs]
  | cons c rest ih =>
    simp only [List.map_cons, List.nodup_cons, List.mem_map] at hnd
    by_cases hok : env.connectOk (buildServer c)
    · have hset :
          mapSet st.servers c.id { hid := st.nextHid, spec := buildServer c } =
            st.servers ++ [(c.id, { hid := st.nextHid, spec := buildServer c })] :=
        mapSet_of_not_mem _ _ _ (fun p hp => hd c (List.mem_cons_self _ _) p hp)
      have hd' : ∀ c' ∈ rest,
          ∀ p ∈ (st.servers ++ [(c.id, { hid := st.nextHid, spec := buildServer c })]),
            p.1 ≠ c'.id := by
        intro c' hc' p hp
        rcases List.mem_append.1 hp with hp | hp
        · exact hd c' (List.mem_cons_of_mem _ hc') p hp
        · have : p = (c.id, { hid := st.nextHid, spec := buildServer c }) := by
            simpa using hp
          subst this
          intro hcontra
          exact hnd.1 ⟨c', hc', hcontra.symm⟩
      have ihr := ih
        { st with
            servers := st.servers ++ [(c.id, { hid := st.nextHid, spec := buildServer c })],
            nextHid := st.nextHid + 1 }
        hd' hnd.2
      simp only [connectLoop, hok, if_true, hset]
      constructor
      · rw [ihr.1]
        simp [mapValues_append, mapValues, hok]
      · rw [connectedSpecs_cons_connect, ihr.2]
        simp
    · have hd' : ∀ c' ∈ rest, ∀ p ∈ st.servers, p.1 ≠ c'.id :=
        fun c' hc' p hp => hd c' (List.mem_cons_of_mem _ hc') p hp
      have ihr := ih st hd' hnd.2
      simp only [connectLoop, hok, Bool.false_eq_true, if_false]
      constructor
      · rw [ihr.1]
        simp [hok]
      · rw [connectedSpecs_cons_connect, ihr.2]
        simp

/-- Claim C2 (amended): for every configuration list with pairwise distinct
ids, whenever initializeServers actually reconciles (it is not the
unchanged-fingerprint early return, and the registry is in a reachable
state, whose map is empty when uninitialized), every entry's connection is
attempted and the returned handles are exactly those of the entries whose
connection succeeded — a failing entry is excluded without aborting the
rest, and the call returns normally (the embedding is a total function). -/
theorem claim2_partial_failure_amended (env : Env) (st : ManagerState)
    (configs : List MCPServerConfig)
    (hreach : st.isInitialized = false → st.servers = [])
    (hnd : (configs.map (·.id)).Nodup)
    (hchanged : ¬(st.isInitialized = true ∧ serializeConfigs configs = st.configKey)) :
    ((initializeServers env st configs).1.map (·.spec)) =
      ((configs.filter fun c => env.connectOk (buildServer c)).map buildServer) ∧
    connectedSpecs (initializeServers env st configs).2.2 = configs.map buildServer := by
  simp only [initializeServers, if_neg hchanged]
  by_cases hi : st.isInitialized = true
  · simp only [if_pos hi, closeAllServers]
    have hd : ∀ c ∈ configs,
        ∀ p ∈ ({ st with servers := [], isInitialized := false } : ManagerState).servers,
          p.1 ≠ c.id := by
      intro c _ p hp
      simp at hp
    have hc := connectLoop_spec env configs
      { st with servers := [], isInitialized := false } hd hnd
    refine ⟨?_, ?_⟩
    · simpa [mapValues] using hc.1
    · rw [connectedSpecs_append, connectedSpecs_closes, hc.2]
      simp
  · have hempty : st.servers = [] := hreach (by simpa using hi)
    simp only [if_neg hi]
    have hd : ∀ c ∈ configs, ∀ p ∈ st.servers, p.1 ≠ c.id := by
      intro c _ p hp
      rw [hempty] at hp
      simp at hp
    have hc := connectLoop_spec env configs st hd hnd
    refine ⟨?_, ?_⟩
    · simpa [mapValues, hempty] using hc.1
    · simpa [connectedSpecs] using hc.2

/-- Config sharing the id of `dupB`, for the duplicate-id counterexample. -/
def dupA : MCPServerConfig :=
  { id := "x", name := "first", type := "http", url := some "http://1" }

/-- Config sharing the id of `dupA`. -/
def dupB : MCPServerConfig :=
  { id := "x", name := "second", type := "http", url := some "http://2" }

/-- A stdio config whose connection fails under `envFailStdio`. -/
def failC : MCPServerConfig :=
  { id := "z", name := "gamma", type := "stdio" }

/-- Counterexample for claim C2 as stated: in a list where one entry fails
to connect, two successfully connecting entries that share an id yield only
one returned handle, so the call does not return handles for all non-failing
entries. -/
theorem claim2_counterexample :
    ¬ (((initializeServers envFailStdio initialState [dupA, dupB, failC]).1.map (·.spec)) =
      (([dupA, dupB, failC].filter fun c => envFailStdio.connectOk (buildServer c)).map
        buildServer)) := by
  decide

/-- Witness for the amended claim C2 at a concrete list whose stdio entry
fails to connect. -/
theorem claim2_witness :
    ((initializeServers envFailStdio initialState [wcfg1, wcfg2]).1.map (·.spec)) =
      (([wcfg1, wcfg2].filter fun c => envFailStdio.connectOk (buildServer c)).map buildServer) ∧
    connectedSpecs (initializeServers envFailStdio initialState [wcfg1, wcfg2]).2.2 =
      [wcfg1, wcfg2].map buildServer :=
  claim2_partial_failure_amended envFailStdio initialState [wcfg1, wcfg2]
    (fun _ => rfl) (by decide) (by decide)

/-! ## Claims about the discovery route -/

/-- The finally-block close passes the already-computed response through
unchanged whether or not the close itself fails. -/
lemma finallyClose_fst (co : ServerSpec → Bool) (sp : ServerSpec) (r : DiscoverResponse) :
    (finallyClose co sp r).1 = r := by
  unfold finallyClose
  split <;> rfl

/-- Claim C5: in every discover call the number of close invocations equals
the number of server objects constructed (one close per handle on every
exit path), and the outcome returned to the caller does not depend on
whether the close itself fails. -/
theorem claim5_discover_close_balanced (env : DEnv) (co co' : ServerSpec → Bool)
    (server? : Option MCPServerConfig) :
    (discover env co server?).2.closeCalls = (discover env co server?).2.handlesMade ∧
    (discover env co server?).1 = (discover env co' server?).1 := by
  cases server? with
  | none => exact ⟨rfl, rfl⟩
  | some s =>
    by_cases ht : s.type = "stdio" ∨ s.type = "http"
    · simp [discover, if_pos ht, finallyClose_fst]
    · simp [discover, if_neg ht]

/-- Claim C9: a tool entry with a missing name is reported as
"Unknown Tool" and one with a missing description as
"No description available"; the mapping is total, so missing fields are
never surfaced as errors. -/
theorem claim9_tool_defaults (t : RawTool) :
    (t.name = none → (mapTool t).name = "Unknown Tool") ∧
    (t.description = none → (mapTool t).description = "No description available") := by
  constructor
  · intro h
    simp [mapTool, jsOrStr, h]
  · intro h
    simp [mapTool, jsOrStr, h]

/-- Witness for claim C9 at a tool entry missing both fields. -/
theorem claim9_witness :
    (mapTool { name := none, description := none }).name = "Unknown Tool" ∧
    (mapTool { name := none, description := none }).description = "No description available" :=
  ⟨(claim9_tool_defaults { name := none, description := none }).1 rfl,
   (claim9_tool_defaults { name := none, description := none }).2 rfl⟩

/-- Discovery environment in which every connection fails with the message
"spawn failed". -/
def denvFail : DEnv :=
  { connectOk := fun _ => false,
    connectMsg := fun _ => "spawn failed",
    listTools := fun _ => Except.ok [] }

/-- Counterexample for claim C4 as stated: a stdio config missing its
command does not produce a validation error with zero connect attempts —
the command is defaulted to "npx" and exactly one connection is attempted,
whose failure surfaces as the 500 discovery-failure response. -/
theorem claim4_counterexample :
    (discover denvFail (fun _ => true) (some wcfg2)).2.connects ≠ [] ∧
    (discover denvFail (fun _ => true) (some wcfg2)).2.connects =
      [ServerSpec.stdio "beta" "npx" [] none] ∧
    (discover denvFail (fun _ => true) (some wcfg2)).1 =
      DiscoverResponse.failure "Failed to discover tools: spawn failed" [] := by
  decide

/-- Claim C4 (amended): before connecting, discover validates only that a
server config is present and that its type is "stdio" or "http" (any other
type yields the invalid-type client error with zero connect attempts, and a
missing config yields the missing-config client error); transport-specific
fields are not validated — a stdio config missing its command is defaulted
to command "npx" and exactly one connection is attempted. -/
theorem claim4_validation_amended (env : DEnv) (co : ServerSpec → Bool)
    (s : MCPServerConfig) :
    ((discover env co (some s)).2.connects =
      if s.type = "stdio" ∨ s.type = "http" then [buildServer s] else []) ∧
    (¬(s.type = "stdio" ∨ s.type = "http") →
      (discover env co (some s)).1 = DiscoverResponse.badRequest "Invalid server type") ∧
    (s.type = "stdio" → s.command = none →
      (discover env co (some s)).2.connects =
        [ServerSpec.stdio s.name "npx" (s.args.getD []) s.env]) ∧
    (discover env co none).1 = DiscoverResponse.badRequest "Server configuration is required" := by
  by_cases ht : s.type = "stdio" ∨ s.type = "http"
  · refine ⟨?_, fun hcontra => absurd ht hcontra, ?_, rfl⟩
    · simp only [discover, if_pos ht, ht, if_true]
    · intro h1 h2
      simp only [discover, if_pos ht, buildServer, if_pos h1, h2, Option.getD]
  · refine ⟨?_, fun _ => ?_, fun h1 _ => absurd (Or.inl h1) ht, rfl⟩
    · simp only [discover, if_neg ht, ht, if_false]
    · simp only [discover, if_neg ht]

/-- Witness for the amended claim C4 at the stdio config missing its
command. -/
theorem claim4_witness :
    (discover denvFail (fun _ => false) (some wcfg2)).2.connects =
      [ServerSpec.stdio "beta" "npx" [] none] := by
  have h := (claim4_validation_amended denvFail (fun _ => false) wcfg2).2.2.1 rfl rfl
  exact h.trans (by decide)

/-! ## Claims about the streaming translator -/

/-- The per-content-item frames are only tool_urls and content frames. -/
lemma processContentItem_not_terminal (ci : ContentItem) :
    ∀ f ∈ processContentItem ci, isDone f = false ∧ isError f = false := by
  intro f hf
  simp only [processContentItem] at hf
  split at hf
  · rcases List.mem_append.1 hf with hf | hf
    · split at hf
      · simp at hf
      · simp only [List.mem_singleton] at hf
        subst hf
        exact ⟨rfl, rfl⟩
    · simp only [List.mem_singleton] at hf
      subst hf
      exact ⟨rfl, rfl⟩
  · simp at hf

/-- The in-loop frames are never done or error frames. -/
lemma processEvent_not_terminal (now : Nat) (e : StreamEvent) :
    ∀ f ∈ processEvent now e, isDone f = false ∧ isError f = false := by
  intro f hf
  cases e with
  | toolCalled item =>
    simp only [processEvent, List.mem_singleton] at hf
    subst hf
    exact ⟨rfl, rfl⟩
  | messageOutput c =>
    cases c with
    | none => simp [processEvent, processMessageOutput] at hf
    | some items =>
      simp only [processEvent, processMessageOutput, List.mem_flatMap] at hf
      obtain ⟨ci, _, hfi⟩ := hf
      exact processContentItem_not_terminal ci f hfi
  | other => simp [processEvent] at hf

/-- No frame of the loop body is a done or error frame. -/
lemma translatorBody_not_terminal (now : Nat) (events : List StreamEvent) :
    ∀ f ∈ (events.map (processEvent now)).flatten, isDone f = false ∧ isError f = false := by
  intro f hf
  rw [List.mem_flatten] at hf
  obtain ⟨l, hl, hfl⟩ := hf
  rw [List.mem_map] at hl
  obtain ⟨e, _, he⟩ := hl
  subst he
  exact processEvent_not_terminal now e f hfl

/-- Claim C3: for every consumed event sequence, the output channel is
closed exactly once; without an iteration failure exactly one done frame
(reason "stop") is emitted and it is the last frame; with an iteration
failure exactly one error frame carrying the failure message is emitted,
no done frame is emitted, and the error frame is the last frame. -/
theorem claim3_terminal_protocol (now : Nat) (events : List StreamEvent) (err : Option String) :
    (runTranslator now events err).2 = 1 ∧
    (runTranslator now events err).1.countP isDone = (if err.isSome then 0 else 1) ∧
    (runTranslator now events err).1.countP isError = (if err.isSome then 1 else 0) ∧
    (runTranslator now events err).1.getLast? =
      some (match err with
            | none => Frame.done "stop"
            | some m => Frame.error m) := by
  have hd0 : ((events.map (processEvent now)).flatten).countP isDone = 0 :=
    List.countP_eq_zero.mpr fun f hf => by
      simp [(translatorBody_not_terminal now events f hf).1]
  have he0 : ((events.map (processEvent now)).flatten).countP isError = 0 :=
    List.countP_eq_zero.mpr fun f hf => by
      simp [(translatorBody_not_terminal now events f hf).2]
  cases err with
  | none =>
    refine ⟨rfl, ?_, ?_, ?_⟩
    · simp [runTranslator, List.countP_append, hd0, isDone]
    · simp [runTranslator, List.countP_append, he0, isError]
    · simp [runTranslator, List.getLast?_concat]
  | some m =>
    refine ⟨rfl, ?_, ?_, ?_⟩
    · simp [runTranslator, List.countP_append, hd0, isDone]
    · simp [runTranslator, List.countP_append, he0, isError]
    · simp [runTranslator, List.getLast?_concat]

/-- An output_text content item with empty text but one url citation. -/
def c7chunkEmpty : ContentItem :=
  { ctype := "output_text", text := "",
    annotations := some [{ atype := "url_citation", url := "http://cite", title := "Cite" }] }

/-- Counterexample for claim C7 as stated: a message chunk whose citation
list is non-empty but whose text is empty emits no tool_urls frame at all
(the whole chunk is skipped), so no tool_urls frame is emitted for it. -/
theorem claim7_counterexample :
    extractCitations c7chunkEmpty.annotations ≠ [] ∧
    (processContentItem c7chunkEmpty).countP isToolUrls = 0 ∧
    processContentItem c7chunkEmpty = [] := by
  decide

/-- Claim C7 (amended): for every message chunk with non-empty text, a
non-empty citation list yields exactly the two frames tool_urls then
content, in that order, and an empty citation list yields only the content
frame. -/
theorem claim7_citations_precede_content (ci : ContentItem)
    (h1 : ci.ctype = "output_text") (h2 : ci.text ≠ "") :
    (extractCitations ci.annotations ≠ [] →
      processContentItem ci =
        [Frame.toolUrls (extractCitations ci.annotations), Frame.content ci.text]) ∧
    (extractCitations ci.annotations = [] →
      processContentItem ci = [Frame.content ci.text]) := by
  constructor
  · intro hc
    simp [processContentItem, h1, h2, hc]
  · intro hc
    simp [processContentItem, h1, h2, hc]

/-- An output_text content item with text and one url citation. -/
def c7chunkFull : ContentItem :=
  { ctype := "output_text", text := "It is sunny",
    annotations := some [{ atype := "url_citation", url := "http://w", title := "W" }] }

/-- Witness for the amended claim C7 at a chunk carrying text and one
citation. -/
theorem claim7_witness :
    processContentItem c7chunkFull =
      [Frame.toolUrls [("http://w", "W")], Frame.content "It is sunny"] := by
  have h := (claim7_citations_precede_content c7chunkFull rfl (by decide)).1 (by decide)
  exact h.trans (by decide)

/-- Argument-payload precedence of the amended claim C8: the web-search
action, else the hosted providerData action, else the providerData object,
else the empty object. -/
def toolArgsSpec (item : RawItem) : String :=
  match classifyToolItem item with
  | ToolKind.webSearch a => a.serialized
  | ToolKind.hosted a => a.serialized
  | ToolKind.provider pd => pd.serialized
  | ToolKind.bare => "\x7b\x7d"

/-- Result precedence of the amended claim C8: a truthy explicit output
field wins over everything, then the synthesized web-search summary, then
the synthesized hosted-search summary, then the placeholder. -/
def toolResultSpec (item : RawItem) : String :=
  if optTruthy item.output then item.output.getD ""
  else
    match classifyToolItem item with
    | ToolKind.webSearch a => webSearchResult a.query
    | ToolKind.hosted a => hostedSearchResult a.query
    | ToolKind.provider _ => placeholderResult
    | ToolKind.bare => placeholderResult

/-- The tool_call_done frame prescribed by the amended claim C8, with the
name, id and status fallbacks. -/
def toolCallDoneSpec (now : Nat) (item : RawItem) : Frame :=
  Frame.toolCallDone
    (jsOrStr item.name (jsOrStr item.rtype "unknown"))
    (jsOrStr item.id (toString now))
    (toolArgsSpec item)
    (toolResultSpec item)
    (jsOrStr item.status "completed")

/-- Claim C8 (amended): every tool_called event yields exactly the
tool_call_done frame whose argument payload follows the precedence
web-search action, hosted providerData action, providerData object, empty
object; whose result gives a truthy explicit output field precedence over
the synthesized web-search and hosted summaries and over the placeholder;
and whose name, call id and status fall back to the type tag then
"unknown", a timestamp-derived id, and "completed". -/
theorem claim8_tool_call_done_amended (now : Nat) (item : RawItem) :
    processToolCalled now item = toolCallDoneSpec now item := by
  unfold processToolCalled toolCallDoneSpec toolArgsSpec toolResultSpec toolArgsResultChain
  by_cases ho : optTruthy item.output
  · cases hk : classifyToolItem item <;> simp [ho, hk]
  · cases hk : classifyToolItem item <;> simp [ho, hk]

/-- A web_search_call item carrying both an action and an explicit
output. -/
def c8item : RawItem :=
  { rtype := some "web_search_call",
    action := some { query := "weather", serialized := "ACT" },
    output := some "RAW OUTPUT",
    name := some "web_search",
    id := some "call_1",
    status := some "completed" }

/-- The result carried by a tool_call_done frame. -/
def frameResult (f : Frame) : String :=
  match f with
  | Frame.toolCallDone _ _ _ r _ => r
  | _ => ""

/-- Counterexample for claim C8 as stated: for a built-in web-search call
that also carries an explicit output field, the emitted result is the
output field, not the synthesized summary embedding the query that the
stated precedence (a) requires. -/
theorem claim8_counterexample :
    frameResult (processToolCalled 0 c8item) = "RAW OUTPUT" ∧
    frameResult (processToolCalled 0 c8item) ≠ webSearchResult "weather" := by
  decide

end OpenGPT
